import Mathlib

/-!
Verification of the rendering subsystem of the minetest-rust client.

The Rust sources are embedded shallowly:
* scalar `f32` values are modelled as exact rationals (`ℚ`), so the arithmetic
  the code performs (`1.0 - v`) is represented exactly;
* fallible operations (slice indexing, which panics out of bounds, and
  `ObjLoader::load`, which panics on a parse error) are modelled with `Option`;
* the I/O boundary (reading the file from disk, running the external `tobj`
  parser) is modelled by passing the extracted file name and the parser's
  result as inputs to `ObjLoader.load`;
* structs whose defining files are not part of the available sources
  (`Mesh`, `Model`, `RenderEngine`, `InstancedRenderData`) are modelled from
  the specification, and are marked as such in their doc comments.
-/

set_option autoImplicit false

namespace Minetest

/-- A 3-component `f32` vector (`glam::Vec3A`), modelled with exact rationals. -/
abbrev Vec3 : Type := ℚ × ℚ × ℚ

/-- A 2-component `f32` vector, modelled with exact rationals. -/
abbrev Vec2 : Type := ℚ × ℚ

/-- The vertex layout of `mesh.rs`: position (3 floats), texture coordinate
(2 floats), color (3 floats).  Field names follow the Rust struct. -/
structure Vertex where
  position : Vec3
  texture_coordinates : Vec2
  color : Vec3
  deriving DecidableEq, Repr

/-- A GPU buffer created by `wgpu::Device::create_buffer_init`, reduced to the
data the claims are about: its `label` and its contents. -/
structure GpuBuffer (α : Type) where
  label : String
  contents : List α
  deriving DecidableEq, Repr

/-- Modelled from the spec: a `Mesh` (its file `mesh.rs` is not among the
available sources) holds a name, an owned GPU vertex buffer, an owned GPU
index buffer, an index count, and an index identifying which material/texture
slot of its parent model it uses. -/
structure Mesh where
  name : String
  vertex_buffer : GpuBuffer Vertex
  index_buffer : GpuBuffer Nat
  index_count : Nat
  texture_slot : Nat
  deriving DecidableEq, Repr

/-- Modelled from the spec: `Mesh::new_from_existing` (from the missing
`mesh.rs`) wraps already-created buffers into a `Mesh`; its arguments are
those passed at `obj_loader.rs` lines 103–109: the name, the vertex buffer,
the index buffer, the index count and the material/texture-slot index. -/
def Mesh.new_from_existing (name : String) (vertex_buffer : GpuBuffer Vertex)
    (index_buffer : GpuBuffer Nat) (index_count : Nat) (texture_slot : Nat) : Mesh :=
  { name, vertex_buffer, index_buffer, index_count, texture_slot }

/-- The `Model` struct as constructed at `obj_loader.rs` lines 116–121: a name,
the list of meshes, the number of expected texture bindings, and the `lock`
mutability-guard flag. -/
structure Model where
  name : String
  meshes : List Mesh
  number_of_texture_buffers : Nat
  lock : Bool
  deriving DecidableEq, Repr

/-- The per-submesh payload of the `tobj` parser output that
`ObjLoader::load` reads: flat position floats, flat texture-coordinate
floats, and the (already unified, already triangulated) index list. -/
structure RawMesh where
  positions : List ℚ
  texcoords : List ℚ
  indices : List Nat
  deriving DecidableEq, Repr

/-- `format!("{:?}", s)` on a Rust `String`: the `Debug` formatting wraps the
string in quotes.  Used for the wgpu buffer labels. -/
def debugFmt (s : String) : String :=
  "\"" ++ s ++ "\""

/-- One iteration of the vertex-building loop of `ObjLoader::load`
(`obj_loader.rs` lines 69–88): read position floats at `i*3 .. i*3+2` and
texture-coordinate floats at `i*2` and `i*2+1`, flip the V coordinate
(`1.0 - v`), and use the uniform white color.  A Rust out-of-bounds index
panics, modelled as `none`. -/
def buildVertex (positions texcoords : List ℚ) (i : Nat) : Option Vertex :=
  (positions[i * 3]?).bind fun px =>
    (positions[i * 3 + 1]?).bind fun py =>
      (positions[i * 3 + 2]?).bind fun pz =>
        (texcoords[i * 2]?).bind fun u =>
          (texcoords[i * 2 + 1]?).bind fun v =>
            some { position := (px, py, pz)
                   texture_coordinates := (u, 1 - v)
                   color := (1, 1, 1) }

/-- Effectful map over a list in the `Option` monad, in left-to-right order;
the shallow embedding of a Rust `for` loop that pushes one element per
iteration and whose body can panic. -/
def mapOpt {α β : Type} (f : α → Option β) : List α → Option (List β)
  | [] => some []
  | x :: xs =>
    match f x, mapOpt f xs with
    | some y, some ys => some (y :: ys)
    | _, _ => none

/-- The whole vertex-building loop of `ObjLoader::load`: one vertex for each
`i` in `0 .. positions.len() / 3`. -/
def buildVertices (positions texcoords : List ℚ) : Option (List Vertex) :=
  mapOpt (buildVertex positions texcoords) (List.range (positions.length / 3))

/-- The body of the submesh loop of `ObjLoader::load` (`obj_loader.rs` lines
65–112) for the submesh `m` at ordinal `w`: build the vertex list, create the
vertex and index buffers (labelled with the `{:?}`-formatted file name), and
wrap them via `Mesh::new_from_existing` with the file name, the index count
`m.indices.len()` and the ordinal `w` as texture-slot index. -/
def loadSubmesh (file_name : String) (m : RawMesh) (w : Nat) : Option Mesh :=
  match buildVertices m.positions m.texcoords with
  | none => none
  | some vertices =>
      some (Mesh.new_from_existing file_name
        { label := debugFmt file_name ++ " Vertex Buffer", contents := vertices }
        { label := debugFmt file_name ++ " Index Buffer", contents := m.indices }
        m.indices.length
        w)

namespace ObjLoader

/-- `ObjLoader::load` (`obj_loader.rs` lines 32–122).  The file-system read
and the `tobj` parse are at the I/O boundary, so the extracted file name and
the parser's result arrive as inputs: `parse_result` is `Except.error` when
`tobj::load_obj_buf` failed (the Rust code then panics, modelled `none`), and
`Except.ok raw_models` on success.  On success each raw submesh is converted
by `loadSubmesh` (a panic inside the loop aborts the whole load), and the
resulting meshes are wrapped in a `Model` with
`number_of_texture_buffers = meshes.len()` and `lock = false`. -/
def load (file_name : String) (parse_result : Except String (List RawMesh)) :
    Option Model :=
  match parse_result with
  | .error _ => none
  | .ok raw_models =>
      match mapOpt (fun wm : Nat × RawMesh => loadSubmesh file_name wm.2 wm.1)
          raw_models.enum with
      | none => none
      | some meshes =>
          some { name := file_name
                 meshes := meshes
                 number_of_texture_buffers := meshes.length
                 lock := false }

end ObjLoader

/-! ### Basic properties of the loop embedding -/

theorem mapOpt_length {α β : Type} {f : α → Option β} {l : List α} {l' : List β}
    (h : mapOpt f l = some l') : l'.length = l.length := by
  induction l generalizing l' with
  | nil => simp [mapOpt] at h; simp [← h]
  | cons x xs ih =>
    rw [mapOpt] at h
    rcases hx : f x with _ | y <;> rw [hx] at h
    · exact absurd h (by simp)
    · rcases hxs : mapOpt f xs with _ | ys <;> rw [hxs] at h
      · exact absurd h (by simp)
      · cases h
        simp [ih hxs]

theorem mapOpt_getElem? {α β : Type} {f : α → Option β} {l : List α} {l' : List β}
    (h : mapOpt f l = some l') (i : Nat) : l'[i]? = (l[i]?).bind f := by
  induction l generalizing l' i with
  | nil => simp [mapOpt] at h; subst h; simp
  | cons x xs ih =>
    rw [mapOpt] at h
    rcases hx : f x with _ | y <;> rw [hx] at h
    · exact absurd h (by simp)
    · rcases hxs : mapOpt f xs with _ | ys <;> rw [hxs] at h
      · exact absurd h (by simp)
      · cases h
        cases i with
        | zero => simp [hx]
        | succ j => simpa using ih hxs j

theorem mapOpt_mem {α β : Type} {f : α → Option β} {l : List α} {l' : List β}
    (h : mapOpt f l = some l') {y : β} (hy : y ∈ l') : ∃ x ∈ l, f x = some y := by
  induction l generalizing l' with
  | nil => simp [mapOpt] at h; subst h; simp at hy
  | cons x xs ih =>
    rw [mapOpt] at h
    rcases hx : f x with _ | z <;> rw [hx] at h
    · exact absurd h (by simp)
    · rcases hxs : mapOpt f xs with _ | ys <;> rw [hxs] at h
      · exact absurd h (by simp)
      · cases h
        rcases List.mem_cons.1 hy with rfl | hy
        · exact ⟨x, List.mem_cons_self _ _, hx⟩
        · obtain ⟨a, ha, hfa⟩ := ih hxs hy
          exact ⟨a, List.mem_cons_of_mem _ ha, hfa⟩

theorem mapOpt_isSome_iff {α β : Type} {f : α → Option β} {l : List α} :
    (mapOpt f l).isSome ↔ ∀ x ∈ l, (f x).isSome := by
  induction l with
  | nil => simp [mapOpt]
  | cons x xs ih =>
    rw [mapOpt]
    rcases hx : f x with _ | y
    · simp [hx]
    · rcases hxs : mapOpt f xs with _ | ys
      · rw [hxs] at ih
        simp only [Option.isSome_none, Bool.false_eq_true, false_iff] at ih
        push_neg at ih
        obtain ⟨a, ha, hfa⟩ := ih
        simp only [Option.isSome_none, Bool.false_eq_true, false_iff]
        push_neg
        exact ⟨a, List.mem_cons_of_mem _ ha, hfa⟩
      · rw [hxs] at ih
        simp only [Option.isSome_some, true_iff] at ih
        simp only [Option.isSome_some, true_iff]
        intro a ha
        rcases List.mem_cons.1 ha with rfl | ha
        · simp [hx]
        · exact ih a ha

theorem buildVertex_eq_some {p t : List ℚ} {i : Nat} {px py pz u v : ℚ}
    (h1 : p[i * 3]? = some px) (h2 : p[i * 3 + 1]? = some py)
    (h3 : p[i * 3 + 2]? = some pz) (h4 : t[i * 2]? = some u)
    (h5 : t[i * 2 + 1]? = some v) :
    buildVertex p t i = some ⟨(px, py, pz), (u, 1 - v), (1, 1, 1)⟩ := by
  simp [buildVertex, h1, h2, h3, h4, h5]

theorem buildVertex_isSome_iff {p t : List ℚ} {i : Nat} :
    (buildVertex p t i).isSome ↔ i * 3 + 2 < p.length ∧ i * 2 + 1 < t.length := by
  by_cases hp : i * 3 + 2 < p.length
  · by_cases ht : i * 2 + 1 < t.length
    · rw [buildVertex_eq_some (List.getElem?_eq_getElem (by omega))
        (List.getElem?_eq_getElem (by omega)) (List.getElem?_eq_getElem (by omega))
        (List.getElem?_eq_getElem (by omega)) (List.getElem?_eq_getElem (by omega))]
      simpa using ⟨hp, ht⟩
    · have h5 : t[i * 2 + 1]? = none := List.getElem?_eq_none (by omega)
      rcases h1 : p[i * 3]? with _ | px <;> rcases h2 : p[i * 3 + 1]? with _ | py <;>
        rcases h3 : p[i * 3 + 2]? with _ | pz <;> rcases h4 : t[i * 2]? with _ | u <;>
        simp [buildVertex, h1, h2, h3, h4, h5] <;> omega
  · have h3 : p[i * 3 + 2]? = none := List.getElem?_eq_none (by omega)
    rcases h1 : p[i * 3]? with _ | px <;> rcases h2 : p[i * 3 + 1]? with _ | py <;>
      rcases h4 : t[i * 2]? with _ | u <;> rcases h5 : t[i * 2 + 1]? with _ | v <;>
      simp [buildVertex, h1, h2, h3, h4, h5] <;> omega

theorem buildVertices_isSome_iff (p t : List ℚ) :
    (buildVertices p t).isSome ↔ 2 * (p.length / 3) ≤ t.length := by
  rw [buildVertices, mapOpt_isSome_iff]
  constructor
  · intro h
    rcases Nat.eq_zero_or_pos (p.length / 3) with h0 | h0
    · omega
    · have := h (p.length / 3 - 1) (by simp; omega)
      rw [buildVertex_isSome_iff] at this
      omega
  · intro h i hi
    rw [List.mem_range] at hi
    rw [buildVertex_isSome_iff]
    omega

theorem loadSubmesh_eq_some {f : String} {m : RawMesh} {w : Nat} {mesh : Mesh}
    (h : loadSubmesh f m w = some mesh) :
    ∃ vertices, buildVertices m.positions m.texcoords = some vertices ∧
      mesh = Mesh.new_from_existing f
        { label := debugFmt f ++ " Vertex Buffer", contents := vertices }
        { label := debugFmt f ++ " Index Buffer", contents := m.indices }
        m.indices.length w := by
  rw [loadSubmesh] at h
  rcases hv : buildVertices m.positions m.texcoords with _ | vertices <;> rw [hv] at h
  · exact absurd h (by simp)
  · cases h
    exact ⟨vertices, rfl, rfl⟩

theorem load_ok_meshes {file_name : String} {raw_models : List RawMesh} {model : Model}
    (h : ObjLoader.load file_name (.ok raw_models) = some model) :
    mapOpt (fun wm : Nat × RawMesh => loadSubmesh file_name wm.2 wm.1)
        raw_models.enum = some model.meshes ∧
      model.name = file_name ∧
      model.number_of_texture_buffers = model.meshes.length ∧
      model.lock = false := by
  rw [ObjLoader.load] at h
  rcases hm : mapOpt (fun wm : Nat × RawMesh => loadSubmesh file_name wm.2 wm.1)
      raw_models.enum with _ | meshes <;> rw [hm] at h
  · exact absurd h (by simp)
  · cases h
    exact ⟨rfl, rfl, rfl, rfl⟩

/-! ### Render calls (`render_call.rs`) and the draw-request queues -/

/-- `RenderCall` (`render_call.rs` lines 6–12): an unbatched draw request for
a single mesh. -/
structure RenderCall where
  mesh_name : String
  texture_name : String
  translation : Vec3
  rotation : Vec3
  scale : Vec3
  deriving DecidableEq, Repr

/-- `RenderCall::new` (`render_call.rs` lines 20–34). -/
def RenderCall.new (mesh_name texture_name : String)
    (translation rotation scale : Vec3) : RenderCall :=
  { mesh_name, texture_name, translation, rotation, scale }

/-- `ModelRenderCall` (`render_call.rs` lines 80–86): an unbatched draw
request for a multi-submesh model, with one texture name per submesh. -/
structure ModelRenderCall where
  model_name : String
  texture_names : List String
  translation : Vec3
  rotation : Vec3
  scale : Vec3
  deriving DecidableEq, Repr

/-- `ModelRenderCall::new` (`render_call.rs` lines 88–102): stores the given
name as the model name; it performs no validation of the texture list. -/
def ModelRenderCall.new (mesh_name : String) (texture_names : List String)
    (translation rotation scale : Vec3) : ModelRenderCall :=
  { model_name := mesh_name, texture_names, translation, rotation, scale }

/-- Modelled from the spec: `InstancedRenderData`
(`instanced_render_matrix.rs` is not among the available sources): a
translation, a rotation (Euler angles) and a scale — a pure transform
record with no identity of its own. -/
structure InstancedRenderData where
  translation : Vec3
  rotation : Vec3
  scale : Vec3
  deriving DecidableEq, Repr

/-- Modelled from the spec: `InstancedRenderData::new`, as called at
`client.rs` lines 287–291. -/
def InstancedRenderData.new (translation rotation scale : Vec3) :
    InstancedRenderData :=
  { translation, rotation, scale }

/-- Modelled from the spec: the recoverable per-call error kinds of §7 that
draw-request submission can report. -/
inductive RenderError where
  | ResourceNotFound
  | TextureCountMismatch
  deriving DecidableEq, Repr

/-- Modelled from the spec: the RenderEngine state relevant to draw-request
queuing (the render-engine module is not among the available sources): the
GeometryAsset Store's named models, the queue of non-instanced
ModelRenderCalls, and the per-mesh-name accumulated instanced data. -/
structure RenderEngine where
  models : List (String × Model)
  model_queue : List ModelRenderCall
  instanced_queue : List (String × List InstancedRenderData)

/-- Modelled from the spec: `RenderEngine::render_model` (`submit_model`,
§4.4 and §7): resolve the model name in the GeometryAsset Store — an
unresolvable name fails with ResourceNotFound; a texture list whose length
differs from the target model's submesh count is rejected with
TextureCountMismatch before enqueuing; otherwise enqueue the one
ModelRenderCall built by `ModelRenderCall::new`. -/
def RenderEngine.render_model (re : RenderEngine) (name : String)
    (textures : List String) (translation rotation scale : Vec3) :
    RenderEngine × Option RenderError :=
  match re.models.lookup name with
  | none => (re, some .ResourceNotFound)
  | some model =>
      if textures.length = model.meshes.length then
        ({ re with model_queue := re.model_queue ++
            [ModelRenderCall.new name textures translation rotation scale] },
          none)
      else
        (re, some .TextureCountMismatch)

/-- Insert a batch of instances into the per-mesh-name accumulation queue:
append to the existing entry for that mesh name, or add a new entry at the
end. -/
def addInstances : List (String × List InstancedRenderData) → String →
    List InstancedRenderData → List (String × List InstancedRenderData)
  | [], name, instances => [(name, instances)]
  | (k, v) :: rest, name, instances =>
      if k = name then (k, v ++ instances) :: rest
      else (k, v) :: addInstances rest name instances

/-- Modelled from the spec: `RenderEngine::render_mesh_instanced`
(`submit_instanced`, §4.4): register a batch of InstancedRenderData against
one mesh name; multiple calls for the same mesh name in one frame accumulate
into a single per-mesh-name entry. -/
def RenderEngine.render_mesh_instanced (re : RenderEngine) (mesh_name : String)
    (instances : List InstancedRenderData) : RenderEngine :=
  { re with instanced_queue := addInstances re.instanced_queue mesh_name instances }

/-- One recorded instanced draw call: a mesh name and the single contiguous
instance-transform buffer covering every accumulated instance for it. -/
structure InstancedDraw where
  mesh_name : String
  instance_buffer : List InstancedRenderData
  deriving DecidableEq, Repr

/-- Modelled from the spec: `RenderEngine::process_instanced_render_calls`
(§4.5 step 4): for each distinct mesh name with queued InstancedRenderData,
build one instance-transform buffer and issue a single instanced draw
covering all accumulated instances for that mesh. -/
def processInstancedQueue (q : List (String × List InstancedRenderData)) :
    List InstancedDraw :=
  q.map fun kv => { mesh_name := kv.1, instance_buffer := kv.2 }

/-! ### The per-tick frame sequence of `Client::on_tick` (`client.rs`) -/

/-- `TESTING_LIMIT` (`client.rs` line 17). -/
def TESTING_LIMIT : Nat := 100

/-- The instancing list built by `Client::on_tick` (`client.rs` lines
283–293): for each `x` and `z` in `0 .. TESTING_LIMIT`, one
InstancedRenderData translated to `(x, z, 0)`, rotated by
`(0, spin_test, 0)`, with scale `(1, 1, 1)`. -/
def clientInstancing (spin_test : ℚ) : List InstancedRenderData :=
  (List.range TESTING_LIMIT).flatMap fun x : Nat =>
    (List.range TESTING_LIMIT).map fun z : Nat =>
      InstancedRenderData.new ((x : ℚ), (z : ℚ), 0) (0, spin_test, 0) (1, 1, 1)

/-- A render-engine call made by `Client::on_tick` while producing a frame. -/
inductive FrameEvent where
  | generateFrameBuffer
  | clearBuffers (color depth : Bool)
  | initializeRender
  | renderMesh (name texture : String) (translation rotation scale : Vec3)
  | renderModel (name : String) (textures : List String)
      (translation rotation scale : Vec3)
  | processNotInstancedRenderCalls
  | renderMeshInstanced (name : String) (instances : List InstancedRenderData)
  | processInstancedRenderCalls
  | showAndDestroyFrameBuffer
  deriving DecidableEq, Repr

/-- The sequence of render-engine calls issued by one `Client::on_tick`
(`client.rs` lines 234–303).  That part of `on_tick` is straight-line code:
the same calls are made in the same order every tick whatever the input
state; only the spin angle (and through it the submitted transforms)
varies. -/
def clientOnTickRenderTrace (spin_test : ℚ) : List FrameEvent :=
  [ .generateFrameBuffer,
    .clearBuffers true true,
    .initializeRender,
    .renderMesh "debug" "tf.webp" (-1, 0, 0) (0, -spin_test, 0) (1, 1, 1),
    .renderModel "chair.obj" ["chair.png"] (-2, 0, 0) (0, -spin_test, 0) (1, 1, 1),
    .renderModel "snowman.obj"
      ["snowman.png", "snowman.png", "snowman.png", "snowman.png", "snowman.png"]
      (-3, 0, 0) (0, -spin_test, 0) (1, 1, 1),
    .processNotInstancedRenderCalls,
    .renderMeshInstanced "debug" (clientInstancing spin_test),
    .processInstancedRenderCalls,
    .showAndDestroyFrameBuffer ]

/-- The frame phase a render-engine call belongs to: acquire target (0),
clear (1), begin rendering (2), submit non-instanced (3), record
non-instanced (4), submit instanced (5), record instanced (6), present
(7). -/
def FrameEvent.phase : FrameEvent → Nat
  | .generateFrameBuffer => 0
  | .clearBuffers _ _ => 1
  | .initializeRender => 2
  | .renderMesh _ _ _ _ _ => 3
  | .renderModel _ _ _ _ _ => 3
  | .processNotInstancedRenderCalls => 4
  | .renderMeshInstanced _ _ => 5
  | .processInstancedRenderCalls => 6
  | .showAndDestroyFrameBuffer => 7

/-- A list of frame events is in phase order: each event's phase is less than
or equal to the next one's, so the frame steps are strictly sequential and
the non-instanced and instanced passes never interleave. -/
def phasesMonotone : List FrameEvent → Bool
  | [] => true
  | [_] => true
  | a :: b :: rest => decide (a.phase ≤ b.phase) && phasesMonotone (b :: rest)

/-! ### The window handler (`window_handler.rs`) -/

/-- The sdl2 operations `WindowHandler` can invoke on its wrapped `Window`;
only the visibility call matters for the claims. -/
inductive WindowCall where
  | showWindow
  deriving DecidableEq, Repr

/-- The `WindowHandler` state fields (`window_handler.rs` lines 32–42) that
its own methods mutate; the wrapped SDL window is represented by the list of
calls made to it. -/
structure WindowHandler where
  quit_received : Bool
  visible : Bool
  maximized : Bool
  deriving DecidableEq, Repr

/-- `WindowHandler::show` (`window_handler.rs` lines 105–108): set the
`visible` flag to `true` and call the underlying window's `show()`.  Named
`show'` because `show` is a Lean keyword.  Returns the new state together
with the calls made on the wrapped SDL window. -/
def WindowHandler.show' (w : WindowHandler) : WindowHandler × List WindowCall :=
  ({ w with visible := true }, [.showWindow])

/-- `WindowHandler::hide` (`window_handler.rs` lines 113–116): its body also
sets `visible` to `true` and also calls the underlying window's `show()`. -/
def WindowHandler.hide (w : WindowHandler) : WindowHandler × List WindowCall :=
  ({ w with visible := true }, [.showWindow])

/-! ### Concrete inputs used as witnesses and counterexamples -/

/-- A one-submesh parse result: a single triangle whose three unified indices
all refer to vertex `0`, with all-zero position and texture-coordinate
data. -/
def chairRaw : RawMesh :=
  { positions := [0, 0, 0], texcoords := [0, 0], indices := [0, 0, 0] }

/-- The Mesh `ObjLoader.load` builds from `chairRaw` at ordinal `0` when the
file name is `chair.obj` (the V coordinate is stored as the unreduced
`1 - 0`, exactly as the loader computes it). -/
def chairMesh : Mesh :=
  { name := "chair.obj"
    vertex_buffer :=
      { label := debugFmt "chair.obj" ++ " Vertex Buffer"
        contents := [{ position := (0, 0, 0), texture_coordinates := (0, 1 - 0),
                       color := (1, 1, 1) }] }
    index_buffer :=
      { label := debugFmt "chair.obj" ++ " Index Buffer", contents := [0, 0, 0] }
    index_count := 3
    texture_slot := 0 }

/-- The Model `ObjLoader.load` returns for file name `chair.obj` and parse
result `.ok [chairRaw]`. -/
def chairModel : Model :=
  { name := "chair.obj", meshes := [chairMesh], number_of_texture_buffers := 1,
    lock := false }

/-- A stored Model with zero submeshes, used to exercise the texture-count
check. -/
def c3Model : Model :=
  { name := "m", meshes := [], number_of_texture_buffers := 0, lock := false }

/-- A render engine whose GeometryAsset Store holds only `c3Model` under the
name `m`, with empty queues. -/
def c3Engine : RenderEngine :=
  { models := [("m", c3Model)], model_queue := [], instanced_queue := [] }

/-- A render engine with an empty store and empty queues. -/
def emptyEngine : RenderEngine :=
  { models := [], model_queue := [], instanced_queue := [] }

/-- One concrete instanced-render transform record. -/
def c7Instance : InstancedRenderData :=
  InstancedRenderData.new (0, 0, 0) (0, 0, 0) (1, 1, 1)

/-! ### Further helper lemmas -/

theorem mem_of_getElem?_eq_some {α : Type} {l : List α} {i : Nat} {a : α}
    (h : l[i]? = some a) : a ∈ l := by
  obtain ⟨hi, he⟩ := List.getElem?_eq_some.1 h
  exact List.mem_iff_getElem.2 ⟨i, hi, he⟩

theorem snd_mem_of_mem_enum {α : Type} {l : List α} {p : Nat × α}
    (h : p ∈ l.enum) : p.2 ∈ l := by
  obtain ⟨i, hi, he⟩ := List.mem_iff_getElem.1 h
  have hi' : l.enum[i]? = some p := by rw [List.getElem?_eq_getElem hi, he]
  rw [List.getElem?_enum] at hi'
  rcases hl : l[i]? with _ | a <;> rw [hl] at hi'
  · exact absurd hi' (by simp)
  · simp at hi'
    subst hi'
    exact mem_of_getElem?_eq_some hl

theorem buildVertex_shape {p t : List ℚ} {i : Nat} {vx : Vertex}
    (h : buildVertex p t i = some vx) :
    ∃ px py pz u v, p[i * 3]? = some px ∧ p[i * 3 + 1]? = some py ∧
      p[i * 3 + 2]? = some pz ∧ t[i * 2]? = some u ∧ t[i * 2 + 1]? = some v ∧
      vx = { position := (px, py, pz), texture_coordinates := (u, 1 - v),
             color := (1, 1, 1) } := by
  rw [buildVertex] at h
  simp only [Option.bind_eq_some, Option.some.injEq] at h
  obtain ⟨px, h1, py, h2, pz, h3, u, h4, v, h5, h6⟩ := h
  subst h6
  exact ⟨px, py, pz, u, v, h1, h2, h3, h4, h5, rfl⟩

theorem foldl_render_mesh_instanced_queue (re : RenderEngine) (M : String)
    (batches : List (List InstancedRenderData)) :
    (batches.foldl (fun r b => r.render_mesh_instanced M b) re).instanced_queue =
      batches.foldl (fun q b => addInstances q M b) re.instanced_queue := by
  induction batches generalizing re with
  | nil => rfl
  | cons b rest ih => simpa using ih (re.render_mesh_instanced M b)

theorem addInstances_cons_same (M : String) (acc b : List InstancedRenderData)
    (rest : List (String × List InstancedRenderData)) :
    addInstances ((M, acc) :: rest) M b = (M, acc ++ b) :: rest := by
  simp [addInstances]

theorem foldl_addInstances_single (M : String) (acc : List InstancedRenderData)
    (batches : List (List InstancedRenderData)) :
    batches.foldl (fun q b => addInstances q M b) [(M, acc)] =
      [(M, acc ++ batches.flatten)] := by
  induction batches generalizing acc with
  | nil => simp
  | cons b rest ih =>
    simp only [List.foldl_cons, addInstances_cons_same]
    rw [ih]
    simp

theorem length_flatMap_const {α β : Type} (n : Nat) (l : List α) (f : α → List β)
    (hf : ∀ a ∈ l, (f a).length = n) : (l.flatMap f).length = l.length * n := by
  induction l with
  | nil => simp
  | cons a rest ih =>
    simp only [List.flatMap_cons, List.length_append, hf a (by simp),
      List.length_cons]
    rw [ih fun b hb => hf b (by simp [hb])]
    ring

/-! ### The claims -/

/-- C1 counterexample: the claim fails on the code.  Loading a file named
`chair.obj` whose parse result holds one raw submesh (ordinal 0) produces a
Mesh whose name is the file name `chair.obj`, not the submesh index `0`. -/
theorem C1_counterexample :
    ((ObjLoader.load "chair.obj" (.ok [chairRaw])).map fun model =>
        model.meshes.map Mesh.name) = some ["chair.obj"] ∧
      "chair.obj" ≠ "0" :=
  ⟨rfl, by decide⟩

/-- C1, amended: for every successfully parsed file and every raw submesh at
ordinal `w`, `ObjLoader::load` wraps the submesh's buffers in a Mesh whose
name is the source file's name, whose GPU buffer labels are derived from the
file name (not from the ordinal), and which stores the ordinal `w` as its
material/texture-slot index. -/
theorem C1_amended_theorem (file_name : String) (raw_models : List RawMesh)
    (model : Model) (h : ObjLoader.load file_name (.ok raw_models) = some model)
    (w : Nat) (mesh : Mesh) (hw : model.meshes[w]? = some mesh) :
    mesh.name = file_name ∧
      mesh.vertex_buffer.label = debugFmt file_name ++ " Vertex Buffer" ∧
      mesh.index_buffer.label = debugFmt file_name ++ " Index Buffer" ∧
      mesh.texture_slot = w := by
  obtain ⟨hm, -, -, -⟩ := load_ok_meshes h
  have hbind := mapOpt_getElem? hm w
  rw [hw, List.getElem?_enum] at hbind
  rcases hl : raw_models[w]? with _ | m <;> rw [hl] at hbind
  · exact absurd hbind (by simp)
  · simp only [Option.map_some', Option.some_bind] at hbind
    obtain ⟨vertices, hv, hmesh⟩ := loadSubmesh_eq_some hbind.symm
    subst hmesh
    exact ⟨rfl, rfl, rfl, rfl⟩

/-- C1 witness: the amended statement at the concrete input `chair.obj`,
`[chairRaw]`, submesh ordinal 0. -/
theorem C1_witness :
    ObjLoader.load "chair.obj" (.ok [chairRaw]) = some chairModel ∧
      chairModel.meshes[0]? = some chairMesh ∧
      (chairMesh.name = "chair.obj" ∧
        chairMesh.vertex_buffer.label = debugFmt "chair.obj" ++ " Vertex Buffer" ∧
        chairMesh.index_buffer.label = debugFmt "chair.obj" ++ " Index Buffer" ∧
        chairMesh.texture_slot = 0) :=
  ⟨rfl, rfl, C1_amended_theorem "chair.obj" [chairRaw] chairModel rfl 0 chairMesh rfl⟩

/-- C2: every vertex the loader builds keeps the U texture coordinate read
from the file unchanged and stores `1 - V` for the V coordinate. -/
theorem C2_theorem (positions texcoords : List ℚ) (vertices : List Vertex)
    (hvs : buildVertices positions texcoords = some vertices) (i : Nat)
    (vx : Vertex) (hvx : vertices[i]? = some vx) (u v : ℚ)
    (hu : texcoords[i * 2]? = some u) (hv : texcoords[i * 2 + 1]? = some v) :
    vx.texture_coordinates = (u, 1 - v) := by
  rw [buildVertices] at hvs
  have hbind := mapOpt_getElem? hvs i
  rw [hvx] at hbind
  have hi : i < positions.length / 3 := by
    have hlt : i < vertices.length := (List.getElem?_eq_some.1 hvx).1
    rwa [mapOpt_length hvs, List.length_range] at hlt
  rw [List.getElem?_range hi] at hbind
  simp only [Option.some_bind] at hbind
  obtain ⟨px, py, pz, u', v', -, -, -, hu', hv', hvx'⟩ := buildVertex_shape hbind.symm
  rw [hu] at hu'
  rw [hv] at hv'
  cases Option.some.inj hu'
  cases Option.some.inj hv'
  rw [hvx']

/-- C2 witness: importing the texture-coordinate pair `(1/2, 3/10)` keeps
`u = 1/2` and stores `1 - 3/10` for V, which equals `7/10`. -/
theorem C2_witness :
    (1 : ℚ) - 3 / 10 = 7 / 10 ∧
      ({ position := (0, 0, 0), texture_coordinates := (1 / 2, 1 - 3 / 10),
         color := (1, 1, 1) } : Vertex).texture_coordinates =
        (1 / 2, 1 - 3 / 10) :=
  ⟨by norm_num,
    C2_theorem [0, 0, 0] [1 / 2, 3 / 10]
      [{ position := (0, 0, 0), texture_coordinates := (1 / 2, 1 - 3 / 10),
         color := (1, 1, 1) }] rfl 0
      { position := (0, 0, 0), texture_coordinates := (1 / 2, 1 - 3 / 10),
        color := (1, 1, 1) } rfl (1 / 2) (3 / 10) rfl rfl⟩

/-- C4: on every parser error, `ObjLoader::load` aborts (the Rust code
panics): it returns no Model at all, so no partial Model can be produced or
installed in any store. -/
theorem C4_theorem (file_name msg : String) :
    ObjLoader.load file_name (.error msg) = none :=
  rfl

/-- C5: every Mesh produced by `ObjLoader::load` stores an index buffer whose
length — which is also the stored index count — is a multiple of 3.  The
hypothesis `htri` is the triangulation guarantee of the external `tobj`
parser, which `ObjLoader::load` invokes with `triangulate = true`: every raw
submesh it yields lists whole triangles. -/
theorem C5_theorem (file_name : String) (raw_models : List RawMesh)
    (htri : ∀ m ∈ raw_models, m.indices.length % 3 = 0)
    (model : Model) (h : ObjLoader.load file_name (.ok raw_models) = some model)
    (mesh : Mesh) (hmesh : mesh ∈ model.meshes) :
    mesh.index_buffer.contents.length % 3 = 0 ∧ mesh.index_count % 3 = 0 := by
  obtain ⟨hm, -, -, -⟩ := load_ok_meshes h
  obtain ⟨wm, hwm, hload⟩ := mapOpt_mem hm hmesh
  obtain ⟨vertices, hv, hmesh'⟩ := loadSubmesh_eq_some hload
  subst hmesh'
  have hlen := htri wm.2 (snd_mem_of_mem_enum hwm)
  exact ⟨hlen, hlen⟩

/-- C5 witness: the triangulated one-submesh input `chairRaw` (three
indices) yields a Mesh with index count 3, a multiple of 3. -/
theorem C5_witness :
    (∀ m ∈ [chairRaw], m.indices.length % 3 = 0) ∧
      (chairMesh.index_buffer.contents.length % 3 = 0 ∧
        chairMesh.index_count % 3 = 0) :=
  ⟨by decide,
    C5_theorem "chair.obj" [chairRaw] (by decide) chairModel rfl chairMesh
      (List.mem_singleton.2 rfl)⟩

/-- C6: every Model returned by a successful `ObjLoader::load` has
`lock = false`, its expected-texture-binding count equal to its number of
Meshes, and one Mesh per raw submesh. -/
theorem C6_theorem (file_name : String) (raw_models : List RawMesh)
    (model : Model)
    (h : ObjLoader.load file_name (.ok raw_models) = some model) :
    model.lock = false ∧
      model.number_of_texture_buffers = model.meshes.length ∧
      model.meshes.length = raw_models.length := by
  obtain ⟨hm, -, hcount, hlock⟩ := load_ok_meshes h
  refine ⟨hlock, hcount, ?_⟩
  rw [mapOpt_length hm, List.enum_length]

/-- C6 witness: the concrete load of `chair.obj` returns a Model with
`lock = false`, one texture binding, and one Mesh for its one submesh. -/
theorem C6_witness :
    ObjLoader.load "chair.obj" (.ok [chairRaw]) = some chairModel ∧
      (chairModel.lock = false ∧
        chairModel.number_of_texture_buffers = chairModel.meshes.length ∧
        chairModel.meshes.length = [chairRaw].length) :=
  ⟨rfl, C6_theorem "chair.obj" [chairRaw] chairModel rfl⟩

/-- C9: whenever `texcoords.length ≥ 2 * (positions.length / 3)` the
vertex-building loop of `ObjLoader::load` performs only in-bounds accesses
and yields exactly `positions.length / 3` vertices, each colored `(1,1,1)`;
and the precondition is necessary — on any shorter texture-coordinate list
the loop hits an out-of-bounds access (a panic, modelled `none`), there
being no check in the code. -/
theorem C9_theorem (positions texcoords : List ℚ)
    (h : 2 * (positions.length / 3) ≤ texcoords.length) :
    (∃ vertices, buildVertices positions texcoords = some vertices ∧
        vertices.length = positions.length / 3 ∧
        ∀ vx ∈ vertices, vx.color = (1, 1, 1)) ∧
      ∀ texcoords2 : List ℚ,
        texcoords2.length < 2 * (positions.length / 3) →
          buildVertices positions texcoords2 = none := by
  constructor
  · have hs : (buildVertices positions texcoords).isSome =  true :=
      (buildVertices_isSome_iff positions texcoords).2 h
    obtain ⟨vertices, hv⟩ := Option.isSome_iff_exists.1 hs
    refine ⟨vertices, hv, ?_, ?_⟩
    · rw [buildVertices] at hv
      rw [mapOpt_length hv, List.length_range]
    · intro vx hvx
      rw [buildVertices] at hv
      obtain ⟨j, -, hload⟩ := mapOpt_mem hv hvx
      obtain ⟨px, py, pz, u, v, -, -, -, -, -, hvx'⟩ := buildVertex_shape hload
      rw [hvx']
  · intro texcoords2 hlt
    have hns : ¬(buildVertices positions texcoords2).isSome = true := by
      rw [buildVertices_isSome_iff]
      omega
    exact Option.not_isSome_iff_eq_none.1 hns

/-- C9 witness: for one position triple and exactly two texture floats the
precondition holds, the loop succeeds with one white vertex, and every
shorter texture list makes the loop fail. -/
theorem C9_witness :
    2 * (([0, 0, 0] : List ℚ).length / 3) ≤ ([0, 0] : List ℚ).length ∧
      ((∃ vertices, buildVertices [0, 0, 0] [0, 0] = some vertices ∧
          vertices.length = ([0, 0, 0] : List ℚ).length / 3 ∧
          ∀ vx ∈ vertices, vx.color = (1, 1, 1)) ∧
        ∀ texcoords2 : List ℚ,
          texcoords2.length < 2 * (([0, 0, 0] : List ℚ).length / 3) →
            buildVertices [0, 0, 0] texcoords2 = none) :=
  ⟨by decide, C9_theorem [0, 0, 0] [0, 0] (by decide)⟩

/-- C3: `submit_model` (`render_model`) with a texture-name list whose length
differs from the target Model's submesh count yields TextureCountMismatch
and leaves the whole engine state — in particular the call queue —
unchanged: no ModelRenderCall is enqueued. -/
theorem C3_theorem (re : RenderEngine) (name : String) (model : Model)
    (hm : re.models.lookup name = some model) (textures : List String)
    (hlen : textures.length ≠ model.meshes.length)
    (translation rotation scale : Vec3) :
    re.render_model name textures translation rotation scale =
      (re, some RenderError.TextureCountMismatch) := by
  simp only [RenderEngine.render_model, hm]
  rw [if_neg hlen]

/-- C3 witness: submitting one texture for a stored model with zero
submeshes is rejected with TextureCountMismatch and the engine is
unchanged. -/
theorem C3_witness :
    c3Engine.models.lookup "m" = some c3Model ∧
      (["t"] : List String).length ≠ c3Model.meshes.length ∧
      c3Engine.render_model "m" ["t"] (0, 0, 0) (0, 0, 0) (1, 1, 1) =
        (c3Engine, some RenderError.TextureCountMismatch) :=
  ⟨rfl, by decide,
    C3_theorem c3Engine "m" c3Model rfl ["t"] (by decide)
      (0, 0, 0) (0, 0, 0) (1, 1, 1)⟩

/-- C7: any nonempty sequence of instanced submissions for one mesh name
within a frame results in exactly one instanced draw for that mesh covering
every submitted instance (the instance buffers concatenated), not one draw
per submission or per instance; and in the `Client::on_tick` 100×100
scenario the single draw's instance buffer has 10000 entries. -/
theorem C7_theorem (M : String) (re : RenderEngine)
    (hq : re.instanced_queue = [])
    (batches : List (List InstancedRenderData)) (hb : batches ≠ [])
    (spin_test : ℚ) :
    processInstancedQueue
        ((batches.foldl (fun r b => r.render_mesh_instanced M b)
          re).instanced_queue) =
      [{ mesh_name := M, instance_buffer := batches.flatten }] ∧
      (clientInstancing spin_test).length = 10000 ∧
      processInstancedQueue
          ((re.render_mesh_instanced "debug"
            (clientInstancing spin_test)).instanced_queue) =
        [{ mesh_name := "debug", instance_buffer := clientInstancing spin_test }] := by
  refine ⟨?_, ?_, ?_⟩
  · rw [foldl_render_mesh_instanced_queue, hq]
    rcases batches with _ | ⟨b, rest⟩
    · exact absurd rfl hb
    · rw [List.foldl_cons,
        show addInstances [] M b = [(M, b)] from rfl,
        foldl_addInstances_single]
      rfl
  · rw [clientInstancing, TESTING_LIMIT,
      length_flatMap_const 100 _ _ fun a _ => by
        rw [List.length_map, List.length_range],
      List.length_range]
  · show processInstancedQueue
        (addInstances re.instanced_queue "debug" (clientInstancing spin_test)) = _
    rw [hq]
    rfl

/-- C7 witness: a single one-instance submission on an empty engine yields
one draw with that one instance, and the 100×100 client scenario at spin 0
yields one draw with a 10000-entry instance buffer. -/
theorem C7_witness :
    emptyEngine.instanced_queue = [] ∧
      ([[c7Instance]] : List (List InstancedRenderData)) ≠ [] ∧
      (processInstancedQueue
          (([[c7Instance]].foldl (fun r b => r.render_mesh_instanced "debug" b)
            emptyEngine).instanced_queue) =
        [{ mesh_name := "debug", instance_buffer := [[c7Instance]].flatten }] ∧
        (clientInstancing 0).length = 10000 ∧
        processInstancedQueue
            ((emptyEngine.render_mesh_instanced "debug"
              (clientInstancing 0)).instanced_queue) =
          [{ mesh_name := "debug", instance_buffer := clientInstancing 0 }]) :=
  ⟨rfl, List.cons_ne_nil _ _,
    C7_theorem "debug" emptyEngine rfl [[c7Instance]] (List.cons_ne_nil _ _) 0⟩

/-- C8: in every tick, the render-engine calls `Client::on_tick` makes are in
strictly increasing frame-phase order — acquire target, clear, begin
rendering, submit then record the non-instanced calls, submit then record
the instanced calls — the two recording passes never interleave, the frame
starts by acquiring the target, and presenting the frame buffer is last. -/
theorem C8_theorem (spin_test : ℚ) :
    phasesMonotone (clientOnTickRenderTrace spin_test) = true ∧
      (clientOnTickRenderTrace spin_test).head? =
        some FrameEvent.generateFrameBuffer ∧
      (clientOnTickRenderTrace spin_test).getLast? =
        some FrameEvent.showAndDestroyFrameBuffer :=
  ⟨rfl, rfl, rfl⟩

/-- C10: `WindowHandler::hide` behaves exactly like `WindowHandler::show`:
it sets the `visible` flag to `true` and calls the wrapped window's
`show()`, so the handler is left in the visible state after either call. -/
theorem C10_theorem (w : WindowHandler) :
    w.hide = w.show' ∧ (w.hide).1.visible = true ∧
      (w.hide).2 = [WindowCall.showWindow] ∧ (w.show').1.visible = true :=
  ⟨rfl, rfl, rfl, rfl⟩

end Minetest
